import Mathlib

/-!
Verification of the Bernard run-loop controller (`bernard/core.py`).

The development shallowly embeds the controller: times are naturals
(seconds), external collaborators (scheduler, watchdog, clock, file
system) are oracle inputs supplied per iteration, and the observable
actions of the loop (scheduler steps, snapshot persistence, watchdog
resets, sleeps, exits) are recorded as an event trace.
-/

namespace Bernard

/-- Check execution statuses, the value set of `bernard.check.S`
(imported by `core.py`; the member list is read off the keys of
`STATUS_COLOR` in `BernardStatus.__init__`). -/
inductive S where
  | OK
  | TIMEOUT
  | EXCEPTION
  | INVALID_OUTPUT
deriving DecidableEq

/-- Check state (health verdict) values, the value set of
`bernard.check.R` (keys of `STATE_COLOR` in `BernardStatus.__init__`). -/
inductive R where
  | OK
  | WARNING
  | CRITICAL
  | UNKNOWN
  | NONE
deriving DecidableEq

/-- String form of a status value for rendering (`'%s' % check['status']`). -/
def S.str : S → String
  | S.OK => "OK"
  | S.TIMEOUT => "TIMEOUT"
  | S.EXCEPTION => "EXCEPTION"
  | S.INVALID_OUTPUT => "INVALID_OUTPUT"

/-- String form of a state value for rendering (`'%s' % check['state']`). -/
def R.str : R → String
  | R.OK => "OK"
  | R.WARNING => "WARNING"
  | R.CRITICAL => "CRITICAL"
  | R.UNKNOWN => "UNKNOWN"
  | R.NONE => "NONE"

instance : ToString S := ⟨S.str⟩

instance : ToString R := ⟨R.str⟩

/-- The dictionary returned by `check.get_status()`: the fields that
`BernardStatus.body_lines` reads (`check_name`, `status`, `state`,
`run_count`, `message`). -/
structure CheckStat where
  check_name : String
  status : S
  state : R
  run_count : Nat
  message : Option String
deriving DecidableEq

/-- Modelled from the spec: a `Check` of the external `bernard.check`
module is out of scope beyond the read-only projection `get_status`
returns (§3 CheckStat), so a check is modelled by that projection. -/
structure Check where
  stat : CheckStat
deriving DecidableEq

/-- Modelled from the spec: `get_status` is the read-only projection of
a check's current state (§3). -/
def Check.get_status (c : Check) : CheckStat := c.stat

/-- The `BernardStatus` object: `check_stats` and `schedule_count`
as set in `BernardStatus.__init__`. -/
structure BernardStatus where
  check_stats : List CheckStat
  schedule_count : Nat
deriving DecidableEq

/-- `BernardStatus.__init__(checks, schedule_count)`:
`self.check_stats = [check.get_status() for check in checks]`,
`self.schedule_count = schedule_count`. -/
def BernardStatus.init (checks : List Check) (schedule_count : Nat) : BernardStatus :=
  { check_stats := checks.map Check.get_status
    schedule_count := schedule_count }

/-- `self.STATUS_COLOR`, as an association list (Python dict whose
lookups can fail with `KeyError`). -/
def STATUS_COLOR : List (S × String) :=
  [(S.OK, "green"), (S.TIMEOUT, "yellow"), (S.EXCEPTION, "red"), (S.INVALID_OUTPUT, "red")]

/-- `self.STATE_COLOR`, as an association list. -/
def STATE_COLOR : List (R × String) :=
  [(R.OK, "green"), (R.WARNING, "yellow"), (R.CRITICAL, "red"),
   (R.UNKNOWN, "yellow"), (R.NONE, "white")]

/-- Modelled from the spec: `style` belongs to the external
`checks.check_status` module; the spec (§4.2) treats the color
annotation as optional decoration, so it is modelled as returning the
text unchanged. -/
def style (text : String) (_color : String) : String := text

/-- Python's `str.splitlines` on a character list, with `\n` as the
line separator: no entry is produced for a trailing newline, and the
empty string yields the empty list. -/
def splitlinesList : List Char → List (List Char)
  | [] => []
  | c :: cs =>
    if c = '\n' then [] :: splitlinesList cs
    else
      match splitlinesList cs with
      | [] => [[c]]
      | l :: ls => (c :: l) :: ls

/-- `s.splitlines()` for a Lean `String`. -/
def splitlines (s : String) : List String :=
  (splitlinesList s.data).map (fun l => String.mk l)

/-- `(check['message'] or ' ')`: Python `or` replaces a falsy message
(`None` or the empty string) by a single-space placeholder. -/
def pyOr (m : Option String) : String :=
  match m with
  | Option.none => " "
  | some s => if s = "" then " " else s

/-- The two lines `body_lines` appends for one check: the color-table
lookups and the first-line indexing are the partial operations (Python
`KeyError` / `IndexError`), so the result is an `Option`. -/
def checkLines (check : CheckStat) : Option (List String) :=
  match List.lookup check.status STATUS_COLOR,
        List.lookup check.state STATE_COLOR,
        (splitlines (pyOr check.message)).head? with
  | some status_color, some state_color, some first =>
    some ["  " ++ check.check_name ++ ": [" ++ style (toString check.status) status_color
            ++ "] #" ++ toString check.run_count ++ " run is "
            ++ style (toString check.state) state_color,
          "    " ++ first]
  | _, _, _ => Option.none

/-- The `for check in self.check_stats` loop of `body_lines`: two lines
per check, in order, failing if any check's rendering fails. -/
def renderChecks : List CheckStat → Option (List String)
  | [] => some []
  | c :: cs =>
    match checkLines c, renderChecks cs with
    | some l, some ls => some (l ++ ls)
    | _, _ => Option.none

/-- `BernardStatus.body_lines`: the header lines followed by the
per-check lines. -/
def BernardStatus.body_lines (st : BernardStatus) : Option (List String) :=
  match renderChecks st.check_stats with
  | some checkPart =>
    some (["Schedule count: " ++ toString st.schedule_count,
           "Check count: " ++ toString st.check_stats.length,
           "", "Checks", "======", ""] ++ checkPart)
  | Option.none => Option.none

/-- `BernardStatus.has_error`: always `False`. -/
def BernardStatus.has_error (_st : BernardStatus) : Bool := false

/-- Values stored in the serialized status dictionary. -/
inductive Val where
  | str : String → Val
  | nat : Nat → Val
  | stats : List CheckStat → Val
deriving DecidableEq

/-- Python `dict.update`: entries of `u` replace equal-keyed entries of
`d` and are added otherwise. -/
def dictUpdate (d u : List (String × Val)) : List (String × Val) :=
  d.filter (fun kv => (List.lookup kv.1 u).isNone) ++ u

/-- `BernardStatus.to_dict`: the base dictionary produced by the
external `AgentStatus.to_dict` (modelled from the spec §4.2, "includes
all base fields", left as an arbitrary field list `agentBase`) updated
with the `checks` and `schedule_count` entries. -/
def BernardStatus.to_dict (agentBase : List (String × Val)) (st : BernardStatus) :
    List (String × Val) :=
  dictUpdate agentBase
    [("checks", Val.stats st.check_stats), ("schedule_count", Val.nat st.schedule_count)]

/-! ## The run loop (`Bernard.run`)

The loop is modelled as a step function over the controller's mutable
state.  Every external reading the body makes (the two `wait_time()`
calls, the three `time.time()` calls, the scheduler's counter and check
collection) is an oracle input for that iteration, and every observable
action is recorded in an event trace.  Asynchronous signal delivery is
modelled by naming the gaps between statements of the body
(`SigPoint`) and letting an iteration's input say which signal, if any,
arrives in which gap. -/

/-- `RESTART_INTERVAL = 4 * 24 * 60 * 60  # Defaults to 4 days`. -/
def RESTART_INTERVAL : Nat := 4 * 24 * 60 * 60

/-- Process exit codes: `sys.exit(0)` on graceful shutdown and the
distinguished `AgentSupervisor.RESTART_EXIT_STATUS` (modelled from the
spec: the numeric value is owned by the external supervisor's
convention, so only its distinctness is kept). -/
inductive ExitCode where
  | success
  | restart
deriving DecidableEq

/-- Observable actions of the controller. -/
inductive Event where
  | process
  | persistStatus (schedule_count : Nat) (checks : List Check)
  | watchdogReset (extra : Nat)
  | sleep (duration : Nat)
  | removeStatus
  | exit (code : ExitCode)
deriving DecidableEq

/-- The mutable fields of the `Bernard` instance that the loop reads or
writes: `run_forever`, `autorestart`, `restart_interval`,
`agent_start`, `last_info_update`. -/
structure BernardState where
  run_forever : Bool
  autorestart : Bool
  restart_interval : Nat
  agent_start : Nat
  last_info_update : Nat
deriving DecidableEq

/-- The two signal kinds: `term` for SIGTERM/SIGINT (both installed on
`_handle_sigterm`) and `usr1` for SIGUSR1 (`_handle_sigusr1`). -/
inductive SigKind where
  | term
  | usr1
deriving DecidableEq

/-- Gaps between the statements of one loop-body execution, where a
signal handler may run:
`p0` before `scheduler.process()`,
`p1` between `process()` and the `wait_time()` query,
`p2` between the query and the restart check,
`p3` between the restart check and the persist block,
`p4` between the persist block and the `if self.run_forever` guard,
`p5` between the guard and `StaticWatchdog.reset`,
`p6` between the reset and `time.sleep`,
`p7` after the sleep. -/
inductive SigPoint where
  | p0
  | p1
  | p2
  | p3
  | p4
  | p5
  | p6
  | p7
deriving DecidableEq

/-- Oracle inputs consumed by one execution of the loop body, in the
order the body reads them: `w1` is the first `scheduler.wait_time()`
(bound to the local `wait_time`), `tRestart` the `time.time()` read in
`_should_restart`, `tCheck` the `time.time()` read in the persist
condition, `sc` the scheduler's `schedule_count`, `checks` the
scheduler's check collection, `tAfter` the `time.time()` stored into
`last_info_update` after persisting, and `w2` the second
`scheduler.wait_time()` passed to `time.sleep`.  `sig` is the signal
(if any) delivered during this iteration and the gap it arrives in. -/
structure IterInput where
  w1 : Nat
  tRestart : Nat
  tCheck : Nat
  sc : Nat
  checks : List Check
  tAfter : Nat
  w2 : Nat
  sig : Option (SigKind × SigPoint)
deriving DecidableEq

/-- Whether SIGTERM/SIGINT is delivered at gap `p` this iteration. -/
def sigTermAt (inp : IterInput) (p : SigPoint) : Bool :=
  decide (inp.sig = some (SigKind.term, p))

/-- Whether SIGUSR1 is delivered at gap `p` this iteration. -/
def sigUsrAt (inp : IterInput) (p : SigPoint) : Bool :=
  decide (inp.sig = some (SigKind.usr1, p))

/-- `Bernard._should_restart`: `time.time() - self.agent_start >
self.restart_interval` (truncated subtraction agrees with the Python
real-valued comparison because the interval is non-negative). -/
def should_restart (st : BernardState) (tNow : Nat) : Bool :=
  if tNow - st.agent_start > st.restart_interval then true else false

/-- One execution of the `while self.run_forever` body, from the gap
`p0` after the loop condition was read as true.  Returns the state
after the body, the events it performed, and `some code` if the process
exited during the body (`sys.exit` raised from `_do_restart`, either
via the autorestart check or via the SIGUSR1 handler, which first runs
`_handle_sigterm` and then `_do_restart`).  A SIGTERM/SIGINT handler
only sets `run_forever := false`. -/
def runIter (st : BernardState) (inp : IterInput) : BernardState × List Event × Option ExitCode :=
  if sigUsrAt inp SigPoint.p0 then
    ({ st with run_forever := false }, [Event.exit ExitCode.restart], some ExitCode.restart)
  else
  let r0 := if sigTermAt inp SigPoint.p0 then false else st.run_forever
  -- self.scheduler.process()
  if sigUsrAt inp SigPoint.p1 then
    ({ st with run_forever := false }, [Event.process, Event.exit ExitCode.restart],
     some ExitCode.restart)
  else
  let r1 := if sigTermAt inp SigPoint.p1 then false else r0
  -- wait_time = self.scheduler.wait_time()   (= inp.w1)
  if sigUsrAt inp SigPoint.p2 then
    ({ st with run_forever := false }, [Event.process, Event.exit ExitCode.restart],
     some ExitCode.restart)
  else
  let r2 := if sigTermAt inp SigPoint.p2 then false else r1
  -- if self.autorestart and self._should_restart(): self._do_restart()
  if st.autorestart && should_restart st inp.tRestart then
    ({ st with run_forever := r2 }, [Event.process, Event.exit ExitCode.restart],
     some ExitCode.restart)
  else
  if sigUsrAt inp SigPoint.p3 then
    ({ st with run_forever := false }, [Event.process, Event.exit ExitCode.restart],
     some ExitCode.restart)
  else
  let r3 := if sigTermAt inp SigPoint.p3 then false else r2
  -- if time.time() > self.last_info_update + 10 or wait_time > 10: persist
  let doPersist := inp.tCheck > st.last_info_update + 10 || inp.w1 > 10
  let evs2 := [Event.process] ++
    (if doPersist then [Event.persistStatus inp.sc inp.checks] else [])
  let last' := if doPersist then inp.tAfter else st.last_info_update
  if sigUsrAt inp SigPoint.p4 then
    ({ st with run_forever := false, last_info_update := last' },
     evs2 ++ [Event.exit ExitCode.restart], some ExitCode.restart)
  else
  let r4 := if sigTermAt inp SigPoint.p4 then false else r3
  -- if self.run_forever:
  if r4 then
    if sigUsrAt inp SigPoint.p5 then
      ({ st with run_forever := false, last_info_update := last' },
       evs2 ++ [Event.exit ExitCode.restart], some ExitCode.restart)
    else
    let r5 := if sigTermAt inp SigPoint.p5 then false else r4
    -- StaticWatchdog.reset(int(wait_time))
    let evs3 := evs2 ++ [Event.watchdogReset inp.w1]
    if sigUsrAt inp SigPoint.p6 then
      ({ st with run_forever := false, last_info_update := last' },
       evs3 ++ [Event.exit ExitCode.restart], some ExitCode.restart)
    else
    let r6 := if sigTermAt inp SigPoint.p6 then false else r5
    -- time.sleep(self.scheduler.wait_time())   (= inp.w2, a second query)
    let evs4 := evs3 ++ [Event.sleep inp.w2]
    if sigUsrAt inp SigPoint.p7 then
      ({ st with run_forever := false, last_info_update := last' },
       evs4 ++ [Event.exit ExitCode.restart], some ExitCode.restart)
    else
    let r7 := if sigTermAt inp SigPoint.p7 then false else r6
    ({ st with run_forever := r7, last_info_update := last' }, evs4, Option.none)
  else
    ({ st with run_forever := r4, last_info_update := last' }, evs2, Option.none)

/-- Oracle inputs of the pre-loop part of `Bernard.run`: the checks the
scheduler was built with, the `time.time()` stored into
`last_info_update`, and the `time.time()` stored into `agent_start`. -/
structure StartInput where
  checks0 : List Check
  t0 : Nat
  t1 : Nat
deriving DecidableEq

/-- The pre-loop part of `Bernard.run`: persist the start-up status
(`BernardStatus(checks=...)`, so `schedule_count = 0`), record
`last_info_update`, `restart_interval = int(RESTART_INTERVAL)` and
`agent_start`.  (`run_forever` was set to `True` in `__init__`, which
also issued a plain `StaticWatchdog.reset()`.) -/
def startup (autorestart : Bool) (inp : StartInput) : BernardState × List Event :=
  ({ run_forever := true
     autorestart := autorestart
     restart_interval := RESTART_INTERVAL
     agent_start := inp.t1
     last_info_update := inp.t0 },
   [Event.watchdogReset 0, Event.persistStatus 0 inp.checks0])

/-- The `while self.run_forever` loop with the code that follows it:
when the loop condition reads false, `BernardStatus.remove_latest_status()`
runs and then `sys.exit(0)`.  The list of iteration inputs is the fuel:
if it runs out while the loop would continue, the result carries no
exit code (the run is cut short, not completed). -/
def runLoop : BernardState → List IterInput → BernardState × List Event × Option ExitCode
  | st, [] =>
    if st.run_forever then (st, [], Option.none)
    else (st, [Event.removeStatus, Event.exit ExitCode.success], some ExitCode.success)
  | st, inp :: rest =>
    if st.run_forever then
      match runIter st inp with
      | (st1, evs, some c) => (st1, evs, some c)
      | (st1, evs, Option.none) =>
        match runLoop st1 rest with
        | (st2, evs2, c) => (st2, evs ++ evs2, c)
    else
      (st, [Event.removeStatus, Event.exit ExitCode.success], some ExitCode.success)

/-! ## Configuration loading (`get_bernard_config`) -/

/-- A Bernard configuration value; the empty configuration `{}` is the
empty list. -/
abbrev BernardConfig : Type := List (String × String)

/-- Outcome of `open(config_path)`: `failure` covers the caught
`IOError` and `TypeError`, `ok` yields the file's content. -/
inductive OpenResult where
  | failure
  | ok (content : String)

/-- `get_bernard_config`.  The external YAML parser is an oracle
`parse`: `Option.none` models `yaml.load` raising, `some Option.none`
models it returning `None` (the `assert` then fails and is caught by
`except Exception`), `some (some cfg)` a parsed configuration.  The
result pairs the returned configuration with whether a diagnostic was
logged; the return type itself records that no exception propagates. -/
def get_bernard_config (openR : OpenResult)
    (parse : String → Option (Option BernardConfig)) : BernardConfig × Bool :=
  match openR with
  | OpenResult.failure => ([], true)
  | OpenResult.ok content =>
    match parse content with
    | Option.none => ([], true)
    | some Option.none => ([], true)
    | some (some cfg) => (cfg, false)

/-! ## Theorems -/

/-- Once `run_forever` is false, the loop condition fails immediately:
whatever inputs remain, the run performs exactly the snapshot removal
and the successful exit. -/
theorem runLoop_stopped (st : BernardState) (inputs : List IterInput)
    (h : st.run_forever = false) :
    runLoop st inputs =
      (st, [Event.removeStatus, Event.exit ExitCode.success], some ExitCode.success) := by
  cases inputs <;> simp [runLoop, h]

/-- C1: in every completed main-loop iteration (no signal delivered, no
autorestart exit), a fresh status snapshot is persisted — and
`last_info_update` is set to the clock reading taken after persisting —
if and only if the clock read in the condition exceeds
`last_info_update + 10` (more than 10 seconds elapsed since the last
persisted snapshot) or the queried `wait_time` exceeds 10. -/
theorem C1_persist_throttle (st : BernardState) (inp : IterInput)
    (hsig : inp.sig = Option.none)
    (hnr : (st.autorestart && should_restart st inp.tRestart) = false) :
    ((Event.persistStatus inp.sc inp.checks ∈ (runIter st inp).2.1) ↔
      (inp.tCheck > st.last_info_update + 10 ∨ inp.w1 > 10)) ∧
    (runIter st inp).1.last_info_update =
      (if inp.tCheck > st.last_info_update + 10 ∨ inp.w1 > 10 then inp.tAfter
       else st.last_info_update) := by
  by_cases hp : inp.tCheck > st.last_info_update + 10 ∨ inp.w1 > 10 <;>
    by_cases hr : st.run_forever <;>
      simp [runIter, sigTermAt, sigUsrAt, hsig, hnr, hp, hr]

/-- C1 witness: with `last_info_update = 100`, at `tCheck = 105`
(elapsed 5 s) and `wait_time = 3` no snapshot is persisted, while with
`wait_time = 11` a snapshot is persisted at the same elapsed time. -/
theorem C1_persist_throttle_witness :
    (Event.persistStatus 7 [] ∉
      (runIter
        { run_forever := true, autorestart := false, restart_interval := 345600,
          agent_start := 0, last_info_update := 100 }
        { w1 := 3, tRestart := 50, tCheck := 105, sc := 7, checks := [], tAfter := 106,
          w2 := 3, sig := Option.none }).2.1) ∧
    (Event.persistStatus 7 [] ∈
      (runIter
        { run_forever := true, autorestart := false, restart_interval := 345600,
          agent_start := 0, last_info_update := 100 }
        { w1 := 11, tRestart := 50, tCheck := 105, sc := 7, checks := [], tAfter := 106,
          w2 := 4, sig := Option.none }).2.1) :=
  ⟨fun hm => absurd
      ((C1_persist_throttle
        { run_forever := true, autorestart := false, restart_interval := 345600,
          agent_start := 0, last_info_update := 100 }
        { w1 := 3, tRestart := 50, tCheck := 105, sc := 7, checks := [], tAfter := 106,
          w2 := 3, sig := Option.none } rfl rfl).1.mp hm)
      (by decide),
    (C1_persist_throttle
        { run_forever := true, autorestart := false, restart_interval := 345600,
          agent_start := 0, last_info_update := 100 }
        { w1 := 11, tRestart := 50, tCheck := 105, sc := 7, checks := [], tAfter := 106,
          w2 := 4, sig := Option.none } rfl rfl).1.mpr (by decide)⟩

/-- C5: in every iteration with no signal delivered, the restart
transition fires (the body exits with the restart code) if and only if
`autorestart` is enabled and the current time minus `agent_start`
strictly exceeds `restart_interval`; in particular with `autorestart`
disabled it never fires. -/
theorem C5_autorestart_check (st : BernardState) (inp : IterInput)
    (hsig : inp.sig = Option.none) :
    (runIter st inp).2.2 = some ExitCode.restart ↔
      (st.autorestart = true ∧ inp.tRestart - st.agent_start > st.restart_interval) := by
  by_cases ha : st.autorestart <;>
    by_cases hs : inp.tRestart - st.agent_start > st.restart_interval <;>
      by_cases hr : st.run_forever <;>
        by_cases hp : inp.tCheck > st.last_info_update + 10 ∨ inp.w1 > 10 <;>
          simp [runIter, should_restart, sigTermAt, sigUsrAt, hsig, ha, hs, hr, hp]

/-- C5 witness: at `agent_start = 0`, `restart_interval = 345600`, a
clock reading of `345601` triggers the restart exit, and the same
reading with `autorestart` disabled does not. -/
theorem C5_autorestart_check_witness :
    (runIter
      { run_forever := true, autorestart := true, restart_interval := 345600,
        agent_start := 0, last_info_update := 100 }
      { w1 := 3, tRestart := 345601, tCheck := 105, sc := 7, checks := [], tAfter := 106,
        w2 := 3, sig := Option.none }).2.2 = some ExitCode.restart :=
  (C5_autorestart_check
      { run_forever := true, autorestart := true, restart_interval := 345600,
        agent_start := 0, last_info_update := 100 }
      { w1 := 3, tRestart := 345601, tCheck := 105, sc := 7, checks := [], tAfter := 106,
        w2 := 3, sig := Option.none } rfl).mpr (by decide)

/-- C9: `last_info_update` is monotonically non-decreasing: under a
non-decreasing clock (the stored value is no later than this
iteration's condition-time read, which is no later than the
after-persist read), whatever one loop-body execution does — including
signal delivery at any gap — the resulting `last_info_update` is no
smaller than before. -/
theorem C9_last_update_monotone (st : BernardState) (inp : IterInput)
    (h1 : st.last_info_update ≤ inp.tCheck) (h2 : inp.tCheck ≤ inp.tAfter) :
    st.last_info_update ≤ (runIter st inp).1.last_info_update := by
  have hcases : inp.sig = Option.none ∨ ∃ k p, inp.sig = some (k, p) := by
    rcases inp.sig with _ | ⟨k, p⟩
    · exact Or.inl rfl
    · exact Or.inr ⟨k, p, rfl⟩
  rcases hcases with hsig | ⟨k, p, hsig⟩
  · by_cases hA : st.autorestart && should_restart st inp.tRestart <;>
      by_cases hp : inp.tCheck > st.last_info_update + 10 ∨ inp.w1 > 10 <;>
        by_cases hr : st.run_forever <;>
          simp [runIter, sigTermAt, sigUsrAt, hsig, hA, hp, hr] <;> omega
  · cases k <;> cases p <;>
      by_cases hA : st.autorestart && should_restart st inp.tRestart <;>
        by_cases hp : inp.tCheck > st.last_info_update + 10 ∨ inp.w1 > 10 <;>
          by_cases hr : st.run_forever <;>
            simp [runIter, sigTermAt, sigUsrAt, hsig, hA, hp, hr] <;> omega

/-- C9 witness: a concrete iteration that persists (clock readings
100 ≤ 115 ≤ 116) moves `last_info_update` from 100 up to 116. -/
theorem C9_last_update_monotone_witness :
    (100 : Nat) ≤ 115 ∧ (115 : Nat) ≤ 116 ∧
    ({ run_forever := true, autorestart := false, restart_interval := 345600,
       agent_start := 0, last_info_update := 100 } : BernardState).last_info_update ≤
      (runIter
        { run_forever := true, autorestart := false, restart_interval := 345600,
          agent_start := 0, last_info_update := 100 }
        { w1 := 3, tRestart := 50, tCheck := 115, sc := 7, checks := [], tAfter := 116,
          w2 := 3, sig := Option.none }).1.last_info_update :=
  ⟨by decide, by decide,
    C9_last_update_monotone
      { run_forever := true, autorestart := false, restart_interval := 345600,
        agent_start := 0, last_info_update := 100 }
      { w1 := 3, tRestart := 50, tCheck := 115, sc := 7, checks := [], tAfter := 116,
        w2 := 3, sig := Option.none } (by decide) (by decide)⟩

/-- C2 counterexample: the loop body sleeps on the value of a second
`scheduler.wait_time()` query, not on the `wait_time` local it used for
the persist condition and the watchdog reset.  With the first query
returning 3 and the second returning 2, the iteration resets the
watchdog with margin 3 but sleeps 2, so no `sleep` of the queried
`waitTime = 3` occurs. -/
theorem C2_sleep_requery_counterexample :
    (Event.sleep 3 ∉
      (runIter
        { run_forever := true, autorestart := false, restart_interval := 345600,
          agent_start := 0, last_info_update := 100 }
        { w1 := 3, tRestart := 50, tCheck := 105, sc := 7, checks := [], tAfter := 106,
          w2 := 2, sig := Option.none }).2.1) ∧
    (Event.watchdogReset 3 ∈
      (runIter
        { run_forever := true, autorestart := false, restart_interval := 345600,
          agent_start := 0, last_info_update := 100 }
        { w1 := 3, tRestart := 50, tCheck := 105, sc := 7, checks := [], tAfter := 106,
          w2 := 2, sig := Option.none }).2.1) ∧
    (Event.sleep 2 ∈
      (runIter
        { run_forever := true, autorestart := false, restart_interval := 345600,
          agent_start := 0, last_info_update := 100 }
        { w1 := 3, tRestart := 50, tCheck := 105, sc := 7, checks := [], tAfter := 106,
          w2 := 2, sig := Option.none }).2.1) := by
  decide

/-- C2 (amended): in every iteration that is still running after the
restart check and snapshot persistence, the exact tail of the
iteration's trace is a watchdog-deadline extension by the queried
`wait_time` immediately followed by the sleep — the extension happens
before the sleep and never after — and the sleep duration is the value
returned by a second wait-time query, which need not equal the first. -/
theorem C2_watchdog_before_sleep (st : BernardState) (inp : IterInput)
    (hrun : st.run_forever = true) (hsig : inp.sig = Option.none)
    (hnr : (st.autorestart && should_restart st inp.tRestart) = false) :
    (runIter st inp).2.1 =
      [Event.process] ++
      (if inp.tCheck > st.last_info_update + 10 ∨ inp.w1 > 10
        then [Event.persistStatus inp.sc inp.checks] else []) ++
      [Event.watchdogReset inp.w1, Event.sleep inp.w2] ∧
    (runIter st inp).2.2 = Option.none := by
  by_cases hp : inp.tCheck > st.last_info_update + 10 ∨ inp.w1 > 10 <;>
    simp [runIter, sigTermAt, sigUsrAt, hsig, hnr, hp, hrun]

/-- C2 witness: a concrete still-running iteration whose trace is the
scheduler step, the watchdog extension by the first-queried wait time
3, then the sleep for the re-queried wait time 2. -/
theorem C2_watchdog_before_sleep_witness :
    (runIter
      { run_forever := true, autorestart := false, restart_interval := 345600,
        agent_start := 0, last_info_update := 100 }
      { w1 := 3, tRestart := 50, tCheck := 105, sc := 7, checks := [], tAfter := 106,
        w2 := 2, sig := Option.none }).2.1 =
      [Event.process] ++
      (if (105 : Nat) > 100 + 10 ∨ (3 : Nat) > 10
        then [Event.persistStatus 7 []] else []) ++
      [Event.watchdogReset 3, Event.sleep 2] :=
  (C2_watchdog_before_sleep
    { run_forever := true, autorestart := false, restart_interval := 345600,
      agent_start := 0, last_info_update := 100 }
    { w1 := 3, tRestart := 50, tCheck := 105, sc := 7, checks := [], tAfter := 106,
      w2 := 2, sig := Option.none } rfl rfl rfl).1

/-- Number of scheduler steps recorded in a trace. -/
def processCount (evs : List Event) : Nat :=
  (evs.filter (fun e => decide (e = Event.process))).length

/-- C3: delivering SIGTERM/SIGINT at any gap of an iteration sets
`run_forever` to false, and the loop then exits having run at most one
scheduler step from the moment the iteration began; the whole run ends
with exactly the removal of the persisted snapshot followed by the exit
with the success code, and those are its final actions in that order. -/
theorem C3_graceful_stop (st : BernardState) (inp : IterInput) (rest : List IterInput)
    (p : SigPoint) (hrun : st.run_forever = true)
    (hsig : inp.sig = some (SigKind.term, p))
    (hnr : (st.autorestart && should_restart st inp.tRestart) = false) :
    (runIter st inp).1.run_forever = false ∧
    (runLoop st (inp :: rest)).2.2 = some ExitCode.success ∧
    (runLoop st (inp :: rest)).2.1 =
      (runIter st inp).2.1 ++ [Event.removeStatus, Event.exit ExitCode.success] ∧
    processCount (runIter st inp).2.1 ≤ 1 := by
  have hstep : (runIter st inp).1.run_forever = false ∧ (runIter st inp).2.2 = Option.none ∧
      processCount (runIter st inp).2.1 ≤ 1 := by
    cases p <;>
      by_cases hp : inp.tCheck > st.last_info_update + 10 ∨ inp.w1 > 10 <;>
        simp [runIter, sigTermAt, sigUsrAt, hsig, hnr, hp, hrun, processCount]
  refine ⟨hstep.1, ?_, ?_, hstep.2.2⟩ <;>
    · rw [runLoop, if_pos hrun]
      rcases hres : runIter st inp with ⟨st1, evs, c⟩
      rw [hres] at hstep
      rcases hstep with ⟨hflag, hc, -⟩
      subst hc
      dsimp only
      rw [runLoop_stopped st1 rest hflag]

/-- C3 witness: SIGTERM delivered in the gap right after the scheduler
step, on a concrete state; the run performs that one step, persists
nothing further, removes the snapshot and exits 0. -/
theorem C3_graceful_stop_witness :
    (runLoop
      { run_forever := true, autorestart := false, restart_interval := 345600,
        agent_start := 0, last_info_update := 100 }
      [{ w1 := 3, tRestart := 50, tCheck := 105, sc := 7, checks := [], tAfter := 106,
         w2 := 3, sig := some (SigKind.term, SigPoint.p1) }]).2.2 = some ExitCode.success :=
  (C3_graceful_stop
    { run_forever := true, autorestart := false, restart_interval := 345600,
      agent_start := 0, last_info_update := 100 }
    { w1 := 3, tRestart := 50, tCheck := 105, sc := 7, checks := [], tAfter := 106,
      w2 := 3, sig := some (SigKind.term, SigPoint.p1) } [] SigPoint.p1 rfl rfl rfl).2.1

/-- C4: delivering SIGUSR1 at any gap of an iteration (one in which the
autorestart age check does not fire first) sets `run_forever` to false
and makes the body exit immediately with the restart code: the loop
never resumes (the exit code surfaces unchanged from `runLoop`), the
snapshot-removal step is never performed, and the exit is the trace's
final event. -/
theorem C4_restart_signal (st : BernardState) (inp : IterInput) (rest : List IterInput)
    (p : SigPoint) (hrun : st.run_forever = true)
    (hsig : inp.sig = some (SigKind.usr1, p))
    (hnr : (st.autorestart && should_restart st inp.tRestart) = false) :
    (runIter st inp).1.run_forever = false ∧
    (runIter st inp).2.2 = some ExitCode.restart ∧
    Event.removeStatus ∉ (runIter st inp).2.1 ∧
    (runIter st inp).2.1.getLast? = some (Event.exit ExitCode.restart) ∧
    runLoop st (inp :: rest) = ((runIter st inp).1, (runIter st inp).2.1, some ExitCode.restart) := by
  have hstep : (runIter st inp).1.run_forever = false ∧
      (runIter st inp).2.2 = some ExitCode.restart ∧
      Event.removeStatus ∉ (runIter st inp).2.1 ∧
      (runIter st inp).2.1.getLast? = some (Event.exit ExitCode.restart) := by
    cases p <;>
      by_cases hp : inp.tCheck > st.last_info_update + 10 ∨ inp.w1 > 10 <;>
        simp [runIter, sigTermAt, sigUsrAt, hsig, hnr, hp, hrun]
  refine ⟨hstep.1, hstep.2.1, hstep.2.2.1, hstep.2.2.2, ?_⟩
  rw [runLoop, if_pos hrun]
  rcases hres : runIter st inp with ⟨st1, evs, c⟩
  have hc := hstep.2.1
  rw [hres] at hc
  subst hc
  rfl

/-- C4 witness: SIGUSR1 delivered in the gap right after the scheduler
step exits the run immediately with the restart code and no snapshot
removal. -/
theorem C4_restart_signal_witness :
    (runIter
      { run_forever := true, autorestart := false, restart_interval := 345600,
        agent_start := 0, last_info_update := 100 }
      { w1 := 3, tRestart := 50, tCheck := 105, sc := 7, checks := [], tAfter := 106,
        w2 := 3, sig := some (SigKind.usr1, SigPoint.p1) }).2.2 = some ExitCode.restart :=
  (C4_restart_signal
    { run_forever := true, autorestart := false, restart_interval := 345600,
      agent_start := 0, last_info_update := 100 }
    { w1 := 3, tRestart := 50, tCheck := 105, sc := 7, checks := [], tAfter := 106,
      w2 := 3, sig := some (SigKind.usr1, SigPoint.p1) } [] SigPoint.p1 rfl rfl rfl).2.1

/-- One loop-body execution never writes `restart_interval`,
`agent_start` or `autorestart`. -/
theorem runIter_preserves_restart_fields (st : BernardState) (inp : IterInput) :
    (runIter st inp).1.restart_interval = st.restart_interval ∧
    (runIter st inp).1.agent_start = st.agent_start ∧
    (runIter st inp).1.autorestart = st.autorestart := by
  have hcases : inp.sig = Option.none ∨ ∃ k p, inp.sig = some (k, p) := by
    rcases inp.sig with _ | ⟨k, p⟩
    · exact Or.inl rfl
    · exact Or.inr ⟨k, p, rfl⟩
  rcases hcases with hsig | ⟨k, p, hsig⟩
  · by_cases hA : st.autorestart && should_restart st inp.tRestart <;>
      by_cases hp : inp.tCheck > st.last_info_update + 10 ∨ inp.w1 > 10 <;>
        by_cases hr : st.run_forever <;>
          simp [runIter, sigTermAt, sigUsrAt, hsig, hA, hp, hr]
  · cases k <;> cases p <;>
      by_cases hA : st.autorestart && should_restart st inp.tRestart <;>
        by_cases hp : inp.tCheck > st.last_info_update + 10 ∨ inp.w1 > 10 <;>
          by_cases hr : st.run_forever <;>
            simp [runIter, sigTermAt, sigUsrAt, hsig, hA, hp, hr]

/-- The whole loop never writes `restart_interval` or `agent_start`. -/
theorem runLoop_preserves_restart_fields (st : BernardState) (inputs : List IterInput) :
    (runLoop st inputs).1.restart_interval = st.restart_interval ∧
    (runLoop st inputs).1.agent_start = st.agent_start := by
  induction inputs generalizing st with
  | nil => by_cases h : st.run_forever <;> simp [runLoop, h]
  | cons inp rest ih =>
    by_cases h : st.run_forever
    · rw [runLoop, if_pos h]
      have hpres := runIter_preserves_restart_fields st inp
      rcases hres : runIter st inp with ⟨st1, evs, c⟩
      rw [hres] at hpres
      cases c with
      | none =>
        dsimp only
        have hloop := ih st1
        rcases hL : runLoop st1 rest with ⟨st2, evs2, c2⟩
        rw [hL] at hloop
        exact ⟨hloop.1.trans hpres.1, hloop.2.trans hpres.2.1⟩
      | some c =>
        exact ⟨hpres.1, hpres.2.1⟩
    · simp [runLoop, h]

/-- C6: at loop entry the controller records `agent_start` from the
clock and `restart_interval = RESTART_INTERVAL`, which is 4 days
expressed in seconds (345600); the loop never modifies either field
afterwards, whatever iterations and signals follow. -/
theorem C6_restart_interval_immutable (a : Bool) (si : StartInput)
    (inputs : List IterInput) :
    RESTART_INTERVAL = 345600 ∧
    (startup a si).1.restart_interval = RESTART_INTERVAL ∧
    (startup a si).1.agent_start = si.t1 ∧
    (runLoop (startup a si).1 inputs).1.restart_interval = (startup a si).1.restart_interval ∧
    (runLoop (startup a si).1 inputs).1.agent_start = (startup a si).1.agent_start :=
  ⟨rfl, rfl, rfl, (runLoop_preserves_restart_fields (startup a si).1 inputs).1,
    (runLoop_preserves_restart_fields (startup a si).1 inputs).2⟩

/-- C7: configuration loading is total and non-fatal — when the file
cannot be opened, or its content fails to parse (the YAML loader
raises, or yields `None` and the assertion fails), `get_bernard_config`
logs a diagnostic and returns the empty configuration; no exception
escapes (the return type carries no failure case). -/
theorem C7_config_nonfatal (parse : String → Option (Option BernardConfig))
    (content : String)
    (hbad : parse content = Option.none ∨ parse content = some Option.none) :
    get_bernard_config OpenResult.failure parse = ([], true) ∧
    get_bernard_config (OpenResult.ok content) parse = ([], true) := by
  rcases hbad with h | h <;> simp [get_bernard_config, h]

/-- C7 witness: a parser that always raises still yields the empty
configuration with a logged diagnostic, for both failure modes. -/
theorem C7_config_nonfatal_witness :
    ((fun _ : String => (Option.none : Option (Option BernardConfig))) "a" = Option.none ∨
      (fun _ : String => (Option.none : Option (Option BernardConfig))) "a" =
        some Option.none) ∧
    get_bernard_config OpenResult.failure
      (fun _ : String => (Option.none : Option (Option BernardConfig))) = ([], true) ∧
    get_bernard_config (OpenResult.ok "a")
      (fun _ : String => (Option.none : Option (Option BernardConfig))) = ([], true) :=
  ⟨Or.inl rfl,
    (C7_config_nonfatal (fun _ => Option.none) "a" (Or.inl rfl)).1,
    (C7_config_nonfatal (fun _ => Option.none) "a" (Or.inl rfl)).2⟩

/-- `dict.update` semantics: a key present in the update list is looked
up in the update list, whatever the base dictionary held. -/
theorem lookup_dictUpdate (d u : List (String × Val)) (k : String)
    (h : (List.lookup k u).isSome = true) :
    List.lookup k (dictUpdate d u) = List.lookup k u := by
  induction d with
  | nil => simp [dictUpdate]
  | cons kv tl ih =>
    by_cases hkv : (List.lookup kv.1 u).isNone = true
    · have hne : (k == kv.1) = false := by
        by_cases hk : k = kv.1
        · rw [hk] at h
          rw [Option.isNone_iff_eq_none] at hkv
          rw [hkv] at h
          simp at h
        · exact beq_eq_false_iff_ne.mpr hk
      simpa [dictUpdate, List.filter, hkv, List.lookup, hne] using ih
    · simpa [dictUpdate, List.filter, hkv] using ih

/-- C8: a snapshot built from any `N` checks and any schedule count
serializes to a structured form whose `checks` entry is exactly the `N`
per-check stats, one per check in construction order, and whose
`schedule_count` entry is the value passed at construction — whatever
base fields the external serialization contributes. -/
theorem C8_status_roundtrip (agentBase : List (String × Val)) (checks : List Check)
    (n : Nat) :
    List.lookup "checks" (BernardStatus.to_dict agentBase (BernardStatus.init checks n)) =
      some (Val.stats (checks.map Check.get_status)) ∧
    (checks.map Check.get_status).length = checks.length ∧
    List.lookup "schedule_count"
        (BernardStatus.to_dict agentBase (BernardStatus.init checks n)) =
      some (Val.nat n) := by
  refine ⟨?_, checks.length_map Check.get_status, ?_⟩ <;>
    · rw [BernardStatus.to_dict, lookup_dictUpdate]
      · simp [List.lookup, BernardStatus.init]
      · simp [List.lookup, BernardStatus.init]

/-- The per-check rendering loop of `body_lines` never encounters an
empty `splitlines` list once the falsy-message replacement ran. -/
theorem splitlinesList_cons_ne_nil (c : Char) (cs : List Char) :
    splitlinesList (c :: cs) ≠ [] := by
  simp only [splitlinesList]
  split
  · simp
  · split <;> simp

/-- A string other than `""` has a nonempty character list. -/
theorem data_ne_nil_of_ne_empty (s : String) (h : s ≠ "") : s.data ≠ [] := by
  intro hd
  apply h
  cases s with
  | mk l =>
    simp only [String.data] at hd
    rw [hd]

/-- The falsy-message replacement never yields the empty string. -/
theorem pyOr_ne_empty (m : Option String) : pyOr m ≠ "" := by
  cases m with
  | none => simp [pyOr]
  | some s =>
    by_cases h : s = "" <;> simp [pyOr, h]

/-- The first-line index into the split message is always defined. -/
theorem splitlines_pyOr_head_isSome (m : Option String) :
    ((splitlines (pyOr m)).head?).isSome = true := by
  have hne : (pyOr m).data ≠ [] := data_ne_nil_of_ne_empty _ (pyOr_ne_empty m)
  unfold splitlines
  rcases hd : (pyOr m).data with _ | ⟨c, cs⟩
  · exact absurd hd hne
  · have hcons := splitlinesList_cons_ne_nil c cs
    rcases hsl : splitlinesList (c :: cs) with _ | ⟨l, ls⟩
    · exact absurd hsl hcons
    · rfl

/-- The status-color table has an entry for every status value. -/
theorem lookup_STATUS_COLOR_isSome (s : S) :
    (List.lookup s STATUS_COLOR).isSome = true := by
  cases s <;> rfl

/-- The state-color table has an entry for every state value. -/
theorem lookup_STATE_COLOR_isSome (r : R) :
    (List.lookup r STATE_COLOR).isSome = true := by
  cases r <;> rfl

/-- Rendering the two lines of one check never fails. -/
theorem checkLines_isSome (c : CheckStat) : (checkLines c).isSome = true := by
  obtain ⟨a, ha⟩ := Option.isSome_iff_exists.mp (lookup_STATUS_COLOR_isSome c.status)
  obtain ⟨b, hb⟩ := Option.isSome_iff_exists.mp (lookup_STATE_COLOR_isSome c.state)
  obtain ⟨f, hf⟩ := Option.isSome_iff_exists.mp (splitlines_pyOr_head_isSome c.message)
  simp [checkLines, ha, hb, hf]

/-- The whole per-check rendering loop never fails. -/
theorem renderChecks_isSome (l : List CheckStat) : (renderChecks l).isSome = true := by
  induction l with
  | nil => rfl
  | cons c cs ih =>
    obtain ⟨lc, hlc⟩ := Option.isSome_iff_exists.mp (checkLines_isSome c)
    obtain ⟨ls, hls⟩ := Option.isSome_iff_exists.mp ih
    simp [renderChecks, hlc, hls]

/-- C10: snapshot rendering is total on the data model — every status
value hits the status-color table, every state value hits the
state-color table, the first-line index into the (falsy-replaced) split
message is always defined, and consequently `body_lines` succeeds on
every list of check stats. -/
theorem C10_body_lines_total :
    (∀ s : S, (List.lookup s STATUS_COLOR).isSome = true) ∧
    (∀ r : R, (List.lookup r STATE_COLOR).isSome = true) ∧
    (∀ m : Option String, ((splitlines (pyOr m)).head?).isSome = true) ∧
    (∀ (stats : List CheckStat) (n : Nat),
      (BernardStatus.body_lines { check_stats := stats, schedule_count := n }).isSome
        = true) := by
  refine ⟨lookup_STATUS_COLOR_isSome, lookup_STATE_COLOR_isSome,
    splitlines_pyOr_head_isSome, ?_⟩
  intro stats n
  obtain ⟨ls, hls⟩ := Option.isSome_iff_exists.mp (renderChecks_isSome stats)
  simp [BernardStatus.body_lines, hls]

end Bernard
